import Mathlib

/-!
Shallow embedding of the generation route of the repository
(`src/next.config.ts`, second document: the `POST` handler of an image
generation endpoint and its `saveRecord` helper).  Machine strings are
modelled as Lean `String`; the JavaScript string operations used by the
route (`split`, `startsWith`, `includes`, truthiness) are given explicit
structural definitions over character lists so that every definition is
executable by the kernel.  Effects (the provider call, `fs.mkdir`,
`fs.writeFile`, the JSON store read/write, `Date.now`) are modelled by an
explicit environment of outcomes, and the handler returns, next to its
HTTP result, a trace of the provider calls made, the image files written
and the records appended to the JSON store.
-/

set_option autoImplicit false

/-- JavaScript truthiness of an optional string field: `undefined`/`null`
and the empty string are falsy, every other string is truthy. -/
def jsTruthy : Option String → Bool
  | none => false
  | some s => !(s == "")

/-- Split a character list at every occurrence of the separator character,
keeping empty pieces, as JavaScript `String.prototype.split` does for a
one-character separator. -/
def jsSplitCharList (sep : Char) : List Char → List (List Char)
  | [] => [[]]
  | c :: rest =>
    match jsSplitCharList sep rest with
    | [] => [[]]
    | h :: t => if c = sep then [] :: h :: t else (c :: h) :: t

/-- Model of `img.split(",")` from the route (lines 98 and 138). -/
def jsSplit (s : String) : List String :=
  (jsSplitCharList ',' s.toList).map (fun l => String.mk l)

/-- Model of JavaScript `s.startsWith(pat)` (line 134). -/
def jsStartsWith (s pat : String) : Bool :=
  pat.toList.isPrefixOf s.toList

/-- Does `pat` occur as a contiguous run inside the character list? -/
def containsAux (pat : List Char) : List Char → Bool
  | [] => pat.isEmpty
  | c :: rest => pat.isPrefixOf (c :: rest) || containsAux pat rest

/-- Model of JavaScript `s.includes(pat)` (lines 103 and 144). -/
def jsIncludes (s pat : String) : Bool :=
  containsAux pat.toList s.toList

/-- The MIME inference duplicated at lines 103-105 and 144-146 of the
route: `image/png` when the data URL string contains `"image/png"`,
otherwise `image/jpeg`. -/
def inferMime (img : String) : String :=
  if jsIncludes img "image/png" then "image/png" else "image/jpeg"

/-- Role of a history entry (`HistoryItem.role`). -/
inductive Role where
  | user
  | model
deriving DecidableEq, Repr

/-- `HistoryPart` from `@/lib/types` as the route uses it: an optional
text and an optional data-URL image. -/
structure HistoryPart where
  text : Option String
  image : Option String
deriving DecidableEq, Repr

/-- `HistoryItem` from `@/lib/types` as the route uses it. -/
structure HistoryItem where
  role : Role
  parts : List HistoryPart
deriving DecidableEq, Repr

/-- The `inlineData` payload of a translated part (always has both a data
string and a MIME string when the route builds one). -/
structure InlineData where
  data : String
  mimeType : String
deriving DecidableEq, Repr

/-- A translated history/message part as built by the route: a JavaScript
object that may carry a `text` key and may carry an `inlineData` key. -/
structure FormattedPart where
  text : Option String
  inlineData : Option InlineData
deriving DecidableEq, Repr

/-- `Object.keys(part).length` for a translated part (line 112): the
number of keys present on the object. -/
def FormattedPart.keys (p : FormattedPart) : Nat :=
  (if p.text.isSome then 1 else 0) + (if p.inlineData.isSome then 1 else 0)

/-- A translated history entry (`FormattedHistoryItem` in the route). -/
structure FormattedItem where
  role : Role
  parts : List FormattedPart
deriving DecidableEq, Repr

/-- Translation of one history part (the inner `map` at lines 93-111):
truthy text becomes a text part; otherwise a truthy image on a user-role
entry whose data URL splits into more than one comma piece becomes an
inline-data part with the second piece as payload and the inferred MIME;
every other part becomes `\x7b text: "" \x7d`. -/
def mapPart (role : Role) (p : HistoryPart) : FormattedPart :=
  if jsTruthy p.text then
    { text := p.text, inlineData := none }
  else if jsTruthy p.image && (role == Role.user) then
    if 1 < (jsSplit (p.image.getD "")).length then
      { text := none,
        inlineData := some { data := (jsSplit (p.image.getD ""))[1]!,
                             mimeType := inferMime (p.image.getD "") } }
    else
      { text := some "", inlineData := none }
  else
    { text := some "", inlineData := none }

/-- Translation of one history entry (lines 89-114): map every part, then
keep only the parts whose object has at least one key. -/
def translateItem (item : HistoryItem) : FormattedItem :=
  { role := item.role,
    parts := (item.parts.map (mapPart item.role)).filter (fun p => 0 < p.keys) }

/-- The `formattedHistory` computation on a present, nonempty history
(lines 88-115): translate every entry, then keep only the entries with at
least one translated part. -/
def formatHistory (history : List HistoryItem) : List FormattedItem :=
  (history.map translateItem).filter (fun item => 0 < item.parts.length)

/-- The full `formattedHistory` expression (lines 86-116), including the
guard for an absent or empty history. -/
def formatHistoryOpt : Option (List HistoryItem) → List FormattedItem
  | some h => if 0 < h.length then formatHistory h else []
  | none => []

/-- Validation and decoding of the request `inputImage` (lines 130-161):
an image that does not start with `"data:"` or has no comma-separated
payload raises `Invalid image data URL format` (which the outer catch
turns into a 500 response); otherwise the second comma piece is the
base64 payload and the MIME is inferred from the URL string. -/
def processInputImage (img : String) : Except String (String × String) :=
  if !(jsStartsWith img "data:") then
    Except.error "Invalid image data URL format"
  else if (jsSplit img).length < 2 then
    Except.error "Invalid image data URL format"
  else
    Except.ok ((jsSplit img)[1]!, inferMime img)

/-- The `messageParts` built at lines 124-161: the prompt as a text part,
followed, when an input image is supplied (truthy), by its decoded
inline-data part; a malformed input image is an error. -/
def buildMessageParts (prompt : String) (image : Option String) : Except String (List FormattedPart) :=
  if jsTruthy image then
    match processInputImage (image.getD "") with
    | Except.error e => Except.error e
    | Except.ok (data, mime) =>
        Except.ok [{ text := some prompt, inlineData := none },
                   { text := none, inlineData := some { data := data, mimeType := mime } }]
  else
    Except.ok [{ text := some prompt, inlineData := none }]

/-- `inlineData` of a part of the provider reply: the MIME type may be
absent (line 184 defaults it). -/
structure RInlineData where
  data : String
  mimeType : Option String
deriving DecidableEq, Repr

/-- One content part of the provider reply; it may carry inline data
and/or text, each possibly absent. -/
structure RPart where
  inlineData : Option RInlineData
  text : Option String
deriving DecidableEq, Repr

/-- One candidate of the provider reply, flattened to its
`content.parts`. -/
structure GCandidate where
  parts : List RPart
deriving DecidableEq, Repr

/-- The provider reply: its (possibly empty) candidate list. -/
structure GResponse where
  candidates : List GCandidate
deriving DecidableEq, Repr

/-- The mutable extraction state of the scan at lines 172-199. -/
structure Extracted where
  textResponse : Option String
  imageData : Option String
  mimeType : String
deriving DecidableEq, Repr

/-- Initial extraction state (lines 172-174). -/
def initExtracted : Extracted :=
  { textResponse := none, imageData := none, mimeType := "image/png" }

/-- Model of `part.inlineData.mimeType || "image/png"` (line 184). -/
def orPng : Option String → String
  | none => "image/png"
  | some m => if m == "" then "image/png" else m

/-- One step of the response scan (lines 181-198): a truthy `inlineData`
overwrites the image payload and MIME (defaulting an unspecified MIME to
PNG); otherwise a truthy `text` overwrites the description. -/
def scanPart (st : Extracted) (p : RPart) : Extracted :=
  match p.inlineData with
  | some d => { st with imageData := some d.data, mimeType := orPng d.mimeType }
  | none =>
    if jsTruthy p.text then { st with textResponse := p.text } else st

/-- The whole response extraction (lines 177-199): scan the parts of the
first candidate in order, if any candidate is present. -/
def extractResponse (resp : GResponse) : Extracted :=
  match resp.candidates with
  | [] => initExtracted
  | c :: _ => c.parts.foldl scanPart initExtracted

/-- The persisted record (lines 225-229). -/
structure GenerationRecord where
  prompt : String
  imagePath : Option String
  createdAt : String
deriving DecidableEq, Repr

/-- `saveRecord` (lines 27-39).  `readData` is the outcome of reading and
parsing the JSON store file: `none` when `fs.readFile` or `JSON.parse`
threw (missing or corrupt file, handled by the inner catch as the empty
array), `some l` when the file parsed to the array `l`.  `writeFails`
says whether the final `fs.writeFile` rejects; on success the new store
content is returned. -/
def saveRecord (readData : Option (List GenerationRecord)) (writeFails : Bool)
    (record : GenerationRecord) : Except Unit (List GenerationRecord) :=
  let data := match readData with
    | some l => l
    | none => []
  let pushed := data ++ [record]
  if writeFails then Except.error () else Except.ok pushed

/-- The HTTP result of the handler. -/
inductive HResult where
  | ok (image : Option String) (description : Option String)
  | clientError (error : String)
  | serverError (error : String) (details : String)
deriving DecidableEq, Repr

/-- HTTP status of a result (lines 66, 239-242, 250). -/
def HResult.status : HResult → Nat
  | HResult.ok _ _ => 200
  | HResult.clientError _ => 400
  | HResult.serverError _ _ => 500

/-- A provider generation call (`chat.sendMessage`, line 165) together
with the history the chat session was started with (line 120). -/
structure ProviderCall where
  history : List FormattedItem
  message : List FormattedPart
deriving DecidableEq, Repr

/-- Observable effect trace of one handler invocation: the provider
calls made, the image files written under the image directory (file name
and base64 payload) and the records appended to the JSON store. -/
structure Trace where
  calls : List ProviderCall
  filesWritten : List (String × String)
  recordsAppended : List GenerationRecord
deriving DecidableEq, Repr

/-- The empty trace. -/
def emptyTrace : Trace :=
  { calls := [], filesWritten := [], recordsAppended := [] }

/-- Outcomes of the effectful steps of one invocation.  `providerResult`
is what `chat.sendMessage` does (an error message when it rejects);
`mkdirFails` says whether `fs.mkdir` of the image directory rejects — the
catch at lines 213-215 only logs it, so it influences nothing;
`imageWriteError` is `some msg` when `fs.writeFile` of the image file
rejects with message `msg` (line 219, not guarded by any inner catch);
`storeRead` and `storeWriteFails` feed `saveRecord`; `now` is
`Date.now()` and `nowISO` is `new Date().toISOString()`. -/
structure Env where
  providerResult : Except String GResponse
  mkdirFails : Bool
  imageWriteError : Option String
  storeRead : Option (List GenerationRecord)
  storeWriteFails : Bool
  now : Nat
  nowISO : String

/-- The storage step (lines 201-222): when the extracted image data is
truthy, derive the extension from the MIME type, synthesize the file
name from `Date.now()`, and write the file — a write failure escapes to
the outer catch; on success return the public path and the written file.
When no truthy image data was extracted, nothing is written and the
stored path is null. -/
def storeImage (env : Env) (ex : Extracted) : Except String (Option String × List (String × String)) :=
  if jsTruthy ex.imageData then
    let extPart := if ex.mimeType == "image/png" then "png" else "jpg"
    let fileName := "generatedImage-" ++ Nat.repr env.now ++ "." ++ extPart
    match env.imageWriteError with
    | some msg => Except.error msg
    | none => Except.ok (some ("/generated-images/" ++ fileName), [(fileName, ex.imageData.getD "")])
  else
    Except.ok (none, [])

/-- Lines 201-242: store the image if any, build the `GenerationRecord`,
append it via `saveRecord` (whose failure is caught and only logged,
lines 231-236), and return the success body: the image as a data URL of
the extracted MIME and payload (or null) and the extracted description. -/
def storeAndRespond (prompt : String) (env : Env) (call : ProviderCall) (ex : Extracted) : HResult × Trace :=
  match storeImage env ex with
  | Except.error msg =>
      (HResult.serverError "Failed to generate image" msg,
       { calls := [call], filesWritten := [], recordsAppended := [] })
  | Except.ok (storedImagePath, files) =>
      let record : GenerationRecord :=
        { prompt := prompt, imagePath := storedImagePath, createdAt := env.nowISO }
      let appended := match saveRecord env.storeRead env.storeWriteFails record with
        | Except.ok _ => [record]
        | Except.error _ => []
      (HResult.ok
        (if jsTruthy ex.imageData
          then some ("data:" ++ ex.mimeType ++ ";base64," ++ ex.imageData.getD "")
          else none)
        ex.textResponse,
       { calls := [call], filesWritten := files, recordsAppended := appended })

/-- The parsed request body (line 61). -/
structure GenRequest where
  prompt : Option String
  image : Option String
  history : Option (List HistoryItem)
deriving Repr

/-- The `POST` handler (lines 57-253).  A falsy prompt is rejected with
400 before anything else; a malformed input image raises before
`chat.sendMessage`, and the outer catch turns any raised error — from
validation, the provider call or the image file write — into a 500
response carrying the error message as `details`. -/
def POST (req : GenRequest) (env : Env) : HResult × Trace :=
  if jsTruthy req.prompt then
    match buildMessageParts (req.prompt.getD "") req.image with
    | Except.error e => (HResult.serverError "Failed to generate image" e, emptyTrace)
    | Except.ok parts =>
      let call : ProviderCall := { history := formatHistoryOpt req.history, message := parts }
      match env.providerResult with
      | Except.error e =>
          (HResult.serverError "Failed to generate image" e,
           { calls := [call], filesWritten := [], recordsAppended := [] })
      | Except.ok resp => storeAndRespond (req.prompt.getD "") env call (extractResponse resp)
  else
    (HResult.clientError "Prompt is required", emptyTrace)

/-- Following the spec's words for response extraction: the inline data
of the last content unit carrying inline binary data, scanning in order
(`none` when no unit carries inline data). -/
def specLastInline : List RPart → Option RInlineData
  | [] => none
  | p :: ps =>
    match specLastInline ps with
    | some d => some d
    | none => p.inlineData

/-- Following the spec's words for response extraction: the text of the
last content unit that is a text unit — carries truthy text and no inline
data — scanning in order (`none` when there is no such unit). -/
def specLastText : List RPart → Option String
  | [] => none
  | p :: ps =>
    match specLastText ps with
    | some t => some t
    | none => if p.inlineData.isNone && jsTruthy p.text then p.text else none

/-- A truthy optional string is present. -/
theorem jsTruthy_isSome {o : Option String} (h : jsTruthy o = true) : o.isSome = true := by
  cases o with
  | none => simp [jsTruthy] at h
  | some s => rfl

/-- A present nonempty string is truthy. -/
theorem jsTruthy_some {s : String} (h : s ≠ "") : jsTruthy (some s) = true := by
  simp [jsTruthy, h]

/-- Every translated part has exactly one key: the translation never
produces an empty object, so the key-count filter at line 112 can never
drop a part. -/
theorem mapPart_keys (role : Role) (p : HistoryPart) : (mapPart role p).keys = 1 := by
  unfold mapPart
  split
  · rename_i h
    have := jsTruthy_isSome h
    simp [FormattedPart.keys, this]
  · split
    · split <;> simp [FormattedPart.keys]
    · simp [FormattedPart.keys]

/-- A translated history entry is the entrywise translation of its parts:
the key-count filter keeps everything. -/
theorem translateItem_eq (i : HistoryItem) :
    translateItem i = { role := i.role, parts := i.parts.map (mapPart i.role) } := by
  unfold translateItem
  congr 1
  apply List.filter_eq_self.mpr
  intro p hp
  rcases List.mem_map.mp hp with ⟨q, _, rfl⟩
  simp [mapPart_keys]

/-- History translation never drops a translated part, and drops exactly
the history entries whose original part list is empty. -/
theorem formatHistory_eq (h : List HistoryItem) :
    formatHistory h =
      (h.filter (fun i => 0 < i.parts.length)).map
        (fun i => { role := i.role, parts := i.parts.map (mapPart i.role) }) := by
  induction h with
  | nil => rfl
  | cons i t ih =>
    unfold formatHistory at ih ⊢
    simp only [List.map_cons, List.filter_cons, translateItem_eq, List.length_map]
    by_cases hc : 0 < i.parts.length
    · simp [hc, ih]
    · simp [hc, ih]

/-- The overwrite-on-iterate scan, started from any state, ends in the
state given by the last inline unit and the last truthy text unit. -/
theorem foldl_scanPart_eq (parts : List RPart) (st : Extracted) :
    parts.foldl scanPart st =
      { imageData := match specLastInline parts with
          | some d => some d.data
          | none => st.imageData,
        mimeType := match specLastInline parts with
          | some d => orPng d.mimeType
          | none => st.mimeType,
        textResponse := match specLastText parts with
          | some t => some t
          | none => st.textResponse } := by
  induction parts generalizing st with
  | nil => rfl
  | cons p ps ih =>
    rw [List.foldl_cons, ih (scanPart st p)]
    simp only [specLastInline, specLastText]
    cases hI : specLastInline ps <;> cases hT : specLastText ps <;>
      cases hd : p.inlineData <;>
        simp [hd, scanPart] <;>
          cases hj : jsTruthy p.text <;> simp [hj] <;>
            cases hpt : p.text <;> rw [hpt] at hj <;> simp_all [jsTruthy]

/-- C5: when the provider reply contains several inline-binary units or
several truthy text units, the extracted image payload and MIME type are
those of the last inline-binary unit scanned and the extracted
description is the text of the last text unit scanned (overwrite on
iterate); an inline-binary unit whose MIME type is unspecified (absent
or empty) contributes the default `image/png`, which is also the MIME
value when no inline-binary unit occurs at all. -/
theorem extraction_last_seen_wins (cand : GCandidate) (rest : List GCandidate) :
    extractResponse { candidates := cand :: rest } =
      { textResponse := specLastText cand.parts,
        imageData := (specLastInline cand.parts).map RInlineData.data,
        mimeType := match specLastInline cand.parts with
          | some d => orPng d.mimeType
          | none => "image/png" } := by
  show cand.parts.foldl scanPart initExtracted = _
  rw [foldl_scanPart_eq]
  cases specLastInline cand.parts <;> cases specLastText cand.parts <;>
    simp [initExtracted, Option.map]

/-- C8: a successful `saveRecord` run reads the previous array — with a
missing or corrupt store file read as the empty array — and rewrites the
store as exactly that array with the new record appended at the end. -/
theorem saveRecord_appends (readData : Option (List GenerationRecord)) (wf : Bool)
    (record : GenerationRecord) (h : wf = false) :
    saveRecord readData wf record = Except.ok (readData.getD [] ++ [record]) ∧
    saveRecord none wf record = Except.ok [record] := by
  subst h
  cases readData <;> simp [saveRecord]

/-- Witness for C8: appending to a store that previously held one record
yields the two-element array; a missing store yields the singleton. -/
theorem saveRecord_appends_witness :
    saveRecord (some [⟨"p0", none, "t0"⟩]) false ⟨"p1", none, "t1"⟩ =
      Except.ok ((some [(⟨"p0", none, "t0"⟩ : GenerationRecord)]).getD [] ++ [⟨"p1", none, "t1"⟩]) ∧
    saveRecord none false ⟨"p1", none, "t1"⟩ = Except.ok [⟨"p1", none, "t1"⟩] :=
  saveRecord_appends (some [⟨"p0", none, "t0"⟩]) false ⟨"p1", none, "t1"⟩ rfl

/-- C9: a request without a prompt is answered with the 400
`Prompt is required` response, and no provider call is made. -/
theorem missing_prompt_400 (req : GenRequest) (env : Env) (h : req.prompt = none) :
    POST req env = (HResult.clientError "Prompt is required", emptyTrace) ∧
    (POST req env).1.status = 400 ∧ (POST req env).2.calls = [] := by
  have hf : jsTruthy req.prompt = false := by rw [h]; rfl
  unfold POST
  rw [hf]
  simp [HResult.status, emptyTrace]

/-- Witness for C9: the empty request is rejected with 400 and an empty
trace. -/
theorem missing_prompt_400_witness :
    POST { prompt := none, image := none, history := none }
        { providerResult := Except.error "e", mkdirFails := false, imageWriteError := none,
          storeRead := none, storeWriteFails := false, now := 0, nowISO := "t" } =
      (HResult.clientError "Prompt is required", emptyTrace) ∧
    (POST { prompt := none, image := none, history := none }
        { providerResult := Except.error "e", mkdirFails := false, imageWriteError := none,
          storeRead := none, storeWriteFails := false, now := 0, nowISO := "t" }).1.status = 400 ∧
    (POST { prompt := none, image := none, history := none }
        { providerResult := Except.error "e", mkdirFails := false, imageWriteError := none,
          storeRead := none, storeWriteFails := false, now := 0, nowISO := "t" }).2.calls = [] :=
  missing_prompt_400 _ _ rfl

/-- C10: a history image part becomes an inline-binary unit only inside a
user-role entry: the translation of any part of a model-role entry never
carries inline data, an image part (falsy text, truthy image) of a
model-role entry is translated to the empty text part, and whenever a
translated part carries inline data the enclosing role was user. -/
theorem model_role_image_not_inlined (p : HistoryPart) :
    (mapPart Role.model p).inlineData = none ∧
    (jsTruthy p.text = false → jsTruthy p.image = true →
      mapPart Role.model p = { text := some "", inlineData := none }) ∧
    (∀ role : Role, (mapPart role p).inlineData.isSome = true → role = Role.user) := by
  refine ⟨?_, ?_, ?_⟩
  · unfold mapPart
    split
    · rfl
    · split
      · rename_i hcond
        simp at hcond
      · rfl
  · intro ht hi
    unfold mapPart
    rw [ht, hi]
    rfl
  · intro role h
    cases role with
    | user => rfl
    | model =>
      unfold mapPart at h
      split at h
      · simp at h
      · split at h
        · rename_i hcond
          simp at hcond
        · simp at h

/-- Witness for C10: an image part inside a model-role entry is
translated to the empty text part, not to inline data. -/
theorem model_role_image_not_inlined_witness :
    mapPart Role.model ⟨none, some "data:image/png;base64,AA"⟩ =
      { text := some "", inlineData := none } :=
  (model_role_image_not_inlined ⟨none, some "data:image/png;base64,AA"⟩).2.1 rfl rfl

/-- C6: both for a user history image part and for the request input
image, the MIME type of the produced inline-binary unit is `image/png`
when the data URL string contains `image/png` and `image/jpeg`
otherwise. -/
theorem mime_inference_both_paths :
    (∀ (p : HistoryPart) (s : String), jsTruthy p.text = false → p.image = some s →
      s ≠ "" → 1 < (jsSplit s).length →
      (mapPart Role.user p).inlineData =
        some { data := (jsSplit s)[1]!,
               mimeType := if jsIncludes s "image/png" then "image/png" else "image/jpeg" }) ∧
    (∀ (img payload m : String), processInputImage img = Except.ok (payload, m) →
      m = if jsIncludes img "image/png" then "image/png" else "image/jpeg") := by
  constructor
  · intro p s ht hs hne hlen
    unfold mapPart
    rw [ht, hs]
    have : jsTruthy (some s) = true := jsTruthy_some hne
    rw [this]
    simp [hlen, inferMime]
  · intro img payload m h
    unfold processInputImage at h
    split at h
    · exact absurd h (by simp)
    · split at h
      · exact absurd h (by simp)
      · rw [Except.ok.injEq, Prod.mk.injEq] at h
        rw [← h.2]
        rfl

/-- Witness for C6: a PNG data URL in a user history part is inlined with
MIME `image/png`, in agreement with the containment test. -/
theorem mime_inference_both_paths_witness :
    (mapPart Role.user ⟨none, some "data:image/png;base64,AA"⟩).inlineData =
      some { data := (jsSplit "data:image/png;base64,AA")[1]!,
             mimeType := if jsIncludes "data:image/png;base64,AA" "image/png"
                         then "image/png" else "image/jpeg" } :=
  mime_inference_both_paths.1 ⟨none, some "data:image/png;base64,AA"⟩
    "data:image/png;base64,AA" rfl rfl (by decide) (by decide)

/-- C1 counterexample: a history entry whose only part is the empty text
part is translated to one part — the empty-string text part — and is NOT
dropped: the translated history sent to the provider still contains the
entry. -/
theorem empty_part_not_dropped_counterexample :
    formatHistory [⟨Role.user, [⟨some "", none⟩]⟩] = [⟨Role.user, [⟨some "", none⟩]⟩] ∧
    (formatHistory [⟨Role.user, [⟨some "", none⟩]⟩]).length ≠ 0 ∧
    (POST { prompt := some "p", image := none, history := some [⟨Role.user, [⟨some "", none⟩]⟩] }
       { providerResult := Except.error "e", mkdirFails := false, imageWriteError := none,
         storeRead := none, storeWriteFails := false, now := 0, nowISO := "t" }).2.calls =
      [{ history := [⟨Role.user, [⟨some "", none⟩]⟩],
         message := [{ text := some "p", inlineData := none }] }] := by
  decide

/-- C1 amended: every translated part carries exactly one key, so the
key-count filter never drops a part; an empty part (neither truthy text
nor truthy image) is translated to the empty-string text part and kept;
consequently a history turn is dropped iff its original part list was
already empty. -/
theorem empty_parts_kept (hist : List HistoryItem) :
    (∀ (role : Role) (p : HistoryPart), (mapPart role p).keys = 1) ∧
    (∀ (role : Role) (p : HistoryPart), jsTruthy p.text = false → jsTruthy p.image = false →
      mapPart role p = { text := some "", inlineData := none }) ∧
    formatHistory hist =
      (hist.filter (fun i => 0 < i.parts.length)).map
        (fun i => { role := i.role, parts := i.parts.map (mapPart i.role) }) := by
  refine ⟨mapPart_keys, ?_, formatHistory_eq hist⟩
  intro role p ht hi
  unfold mapPart
  rw [ht, hi]
  rfl

/-- Witness for the amended C1: the empty text part of a user entry is
translated to the empty-string text part, and translating that singleton
history keeps the entry. -/
theorem empty_parts_kept_witness :
    mapPart Role.user ⟨some "", none⟩ = { text := some "", inlineData := none } ∧
    formatHistory [⟨Role.user, [⟨some "", none⟩]⟩] =
      (([⟨Role.user, [⟨some "", none⟩]⟩] : List HistoryItem).filter
          (fun i => 0 < i.parts.length)).map
        (fun i => { role := i.role, parts := i.parts.map (mapPart i.role) }) :=
  ⟨(empty_parts_kept []).2.1 Role.user ⟨some "", none⟩ rfl rfl,
   (empty_parts_kept [⟨Role.user, [⟨some "", none⟩]⟩]).2.2⟩

/-- C2 counterexample: a malformed input image (no `data:` start) fails
before the provider call, but the failure is a 500
`Failed to generate image` response, not a 400 validation error. -/
theorem invalid_image_counterexample :
    (POST { prompt := some "p", image := some "nonsense", history := none }
       { providerResult := Except.ok { candidates := [] }, mkdirFails := false,
         imageWriteError := none, storeRead := none, storeWriteFails := false,
         now := 0, nowISO := "t" }).1 =
      HResult.serverError "Failed to generate image" "Invalid image data URL format" ∧
    (POST { prompt := some "p", image := some "nonsense", history := none }
       { providerResult := Except.ok { candidates := [] }, mkdirFails := false,
         imageWriteError := none, storeRead := none, storeWriteFails := false,
         now := 0, nowISO := "t" }).1.status ≠ 400 ∧
    (POST { prompt := some "p", image := some "nonsense", history := none }
       { providerResult := Except.ok { candidates := [] }, mkdirFails := false,
         imageWriteError := none, storeRead := none, storeWriteFails := false,
         now := 0, nowISO := "t" }).2.calls = [] := by
  decide

/-- C2 amended: an input image that does not start with `data:` or has no
comma-delimited payload segment makes the handler fail before any
provider call (the trace holds no call), surfaced as a 500 response with
message `Failed to generate image` and details
`Invalid image data URL format`. -/
theorem invalid_image_500_before_provider (req : GenRequest) (env : Env) (img : String)
    (hp : jsTruthy req.prompt = true) (hi : req.image = some img) (hne : img ≠ "")
    (hbad : jsStartsWith img "data:" = false ∨ (jsSplit img).length < 2) :
    POST req env =
      (HResult.serverError "Failed to generate image" "Invalid image data URL format",
       emptyTrace) ∧
    (POST req env).2.calls = [] := by
  have himg : jsTruthy req.image = true := by
    rw [hi]; exact jsTruthy_some hne
  have hproc : processInputImage img = Except.error "Invalid image data URL format" := by
    unfold processInputImage
    rcases hbad with h1 | h2
    · rw [h1]
      rfl
    · cases hs : jsStartsWith img "data:"
      · rfl
      · simp [h2]
  have hbuild : buildMessageParts (req.prompt.getD "") req.image =
      Except.error "Invalid image data URL format" := by
    unfold buildMessageParts
    rw [himg, hi]
    simp [hproc]
  have hpost : POST req env =
      (HResult.serverError "Failed to generate image" "Invalid image data URL format",
       emptyTrace) := by
    unfold POST
    rw [hp, hbuild]
    rfl
  exact ⟨hpost, by rw [hpost]; rfl⟩

/-- Witness for the amended C2: a concrete malformed image is rejected
with the 500 response and no provider call. -/
theorem invalid_image_500_before_provider_witness :
    POST { prompt := some "p", image := some "nonsense", history := none }
        { providerResult := Except.ok { candidates := [] }, mkdirFails := false,
          imageWriteError := none, storeRead := none, storeWriteFails := false,
          now := 0, nowISO := "t" } =
      (HResult.serverError "Failed to generate image" "Invalid image data URL format",
       emptyTrace) ∧
    (POST { prompt := some "p", image := some "nonsense", history := none }
        { providerResult := Except.ok { candidates := [] }, mkdirFails := false,
          imageWriteError := none, storeRead := none, storeWriteFails := false,
          now := 0, nowISO := "t" }).2.calls = [] :=
  invalid_image_500_before_provider _ _ "nonsense" rfl rfl (by decide) (Or.inl (by decide))

/-- The storage step does not read the mkdir or store-write outcome. -/
theorem storeImage_env_congr (env : Env) (b c : Bool) (ex : Extracted) :
    storeImage { env with mkdirFails := b, storeWriteFails := c } ex = storeImage env ex := rfl

/-- The HTTP result of the post-extraction step is unchanged by mkdir and
JSON-store write outcomes. -/
theorem storeAndRespond_fst_env (prompt : String) (env : Env) (b c : Bool)
    (call : ProviderCall) (ex : Extracted) :
    (storeAndRespond prompt { env with mkdirFails := b, storeWriteFails := c } call ex).1 =
    (storeAndRespond prompt env call ex).1 := by
  unfold storeAndRespond
  rw [storeImage_env_congr]
  split
  · rfl
  · rfl

/-- C3 counterexample: a failing image-file write (`fs.writeFile` of the
image, line 219) is NOT swallowed: it surfaces to the caller as a 500
response and no success body is returned, although the provider did
return an image. -/
theorem image_write_failure_surfaces_counterexample :
    (POST { prompt := some "p", image := none, history := none }
       { providerResult := Except.ok { candidates := [⟨[⟨some ⟨"B", some "image/png"⟩, none⟩]⟩] },
         mkdirFails := false, imageWriteError := some "disk full", storeRead := some [],
         storeWriteFails := false, now := 0, nowISO := "t" }).1 =
      HResult.serverError "Failed to generate image" "disk full" ∧
    (POST { prompt := some "p", image := none, history := none }
       { providerResult := Except.ok { candidates := [⟨[⟨some ⟨"B", some "image/png"⟩, none⟩]⟩] },
         mkdirFails := false, imageWriteError := some "disk full", storeRead := some [],
         storeWriteFails := false, now := 0, nowISO := "t" }).1.status = 500 ∧
    (POST { prompt := some "p", image := none, history := none }
       { providerResult := Except.ok { candidates := [⟨[⟨some ⟨"B", some "image/png"⟩, none⟩]⟩] },
         mkdirFails := false, imageWriteError := some "disk full", storeRead := some [],
         storeWriteFails := false, now := 0, nowISO := "t" }).2.filesWritten = [] := by
  decide

/-- C3 amended: failures of image-directory creation and of the
JSON-store write are swallowed — the HTTP result of the handler is
identical whatever those two outcomes are — while an image-file write
failure does surface to the caller. -/
theorem mkdir_and_store_failures_swallowed (req : GenRequest) (env : Env) (b c : Bool) :
    (POST req { env with mkdirFails := b, storeWriteFails := c }).1 = (POST req env).1 := by
  unfold POST
  split
  · have hpr : ({ env with mkdirFails := b, storeWriteFails := c } : Env).providerResult =
        env.providerResult := rfl
    split
    · rfl
    · rw [hpr]
      split
      · rfl
      · exact storeAndRespond_fst_env _ _ b c _ _
  · rfl

/-- C4 counterexample: with a failing JSON-store write the handler still
answers success with a non-null image and exactly one stored file, but
zero records were appended — refuting exactly-one-record. -/
theorem record_not_appended_counterexample :
    (POST { prompt := some "p", image := none, history := none }
       { providerResult := Except.ok { candidates := [⟨[⟨some ⟨"B", some "image/png"⟩, none⟩]⟩] },
         mkdirFails := false, imageWriteError := none, storeRead := some [],
         storeWriteFails := true, now := 0, nowISO := "t" }).1 =
      HResult.ok (some "data:image/png;base64,B") none ∧
    (POST { prompt := some "p", image := none, history := none }
       { providerResult := Except.ok { candidates := [⟨[⟨some ⟨"B", some "image/png"⟩, none⟩]⟩] },
         mkdirFails := false, imageWriteError := none, storeRead := some [],
         storeWriteFails := true, now := 0, nowISO := "t" }).2.filesWritten.length = 1 ∧
    (POST { prompt := some "p", image := none, history := none }
       { providerResult := Except.ok { candidates := [⟨[⟨some ⟨"B", some "image/png"⟩, none⟩]⟩] },
         mkdirFails := false, imageWriteError := none, storeRead := some [],
         storeWriteFails := true, now := 0, nowISO := "t" }).2.recordsAppended.length = 0 := by
  decide

/-- Counting helper for the post-extraction step: a success result with
non-null image and a succeeding store write comes with exactly one file
and one record. -/
theorem storeAndRespond_counts (prompt : String) (env : Env) (call : ProviderCall)
    (ex : Extracted) (i : String) (d : Option String)
    (hw : env.storeWriteFails = false)
    (h : (storeAndRespond prompt env call ex).1 = HResult.ok (some i) d) :
    (storeAndRespond prompt env call ex).2.filesWritten.length = 1 ∧
    (storeAndRespond prompt env call ex).2.recordsAppended.length = 1 := by
  revert h
  unfold storeAndRespond storeImage saveRecord
  rw [hw]
  cases hj : jsTruthy ex.imageData <;> cases hiw : env.imageWriteError <;> simp [hj, hiw]

/-- C4 amended: an invocation that answers success with a non-null image
wrote exactly one image file; and provided the JSON-store write did not
fail, it also appended exactly one record to the store. -/
theorem one_file_one_record (req : GenRequest) (env : Env) (i : String) (d : Option String)
    (hw : env.storeWriteFails = false)
    (h : (POST req env).1 = HResult.ok (some i) d) :
    (POST req env).2.filesWritten.length = 1 ∧
    (POST req env).2.recordsAppended.length = 1 := by
  revert h
  unfold POST
  split
  · split
    · intro h
      exact absurd h (by simp)
    · split
      · intro h
        simp at h
      · intro h
        exact storeAndRespond_counts _ _ _ _ i d hw h
  · intro h
    exact absurd h (by simp)

/-- Witness for the amended C4: a concrete successful generation with an
image writes one file and appends one record. -/
theorem one_file_one_record_witness :
    (POST { prompt := some "p", image := none, history := none }
       { providerResult := Except.ok { candidates := [⟨[⟨some ⟨"B", some "image/png"⟩, none⟩]⟩] },
         mkdirFails := false, imageWriteError := none, storeRead := some [],
         storeWriteFails := false, now := 0, nowISO := "t" }).2.filesWritten.length = 1 ∧
    (POST { prompt := some "p", image := none, history := none }
       { providerResult := Except.ok { candidates := [⟨[⟨some ⟨"B", some "image/png"⟩, none⟩]⟩] },
         mkdirFails := false, imageWriteError := none, storeRead := some [],
         storeWriteFails := false, now := 0, nowISO := "t" }).2.recordsAppended.length = 1 :=
  one_file_one_record _ _ "data:image/png;base64,B" none rfl (by decide)

/-- C7 counterexample: a provider reply that contains an inline-binary
part with MIME `image/png` but whose last inline-binary part has MIME
`image/jpeg` makes the handler write a `.jpg` file, and the response
image is the JPEG data URL — refuting the claim read over any contained
PNG part. -/
theorem png_extension_counterexample :
    ({ candidates := [⟨[⟨some ⟨"A", some "image/png"⟩, none⟩,
                       ⟨some ⟨"B", some "image/jpeg"⟩, none⟩]⟩] } : GResponse).candidates.head?.bind
        (fun c => c.parts.head?.bind (fun p => p.inlineData.map RInlineData.mimeType)) =
      some (some "image/png") ∧
    (POST { prompt := some "p", image := none, history := none }
       { providerResult := Except.ok { candidates := [⟨[⟨some ⟨"A", some "image/png"⟩, none⟩,
                                                       ⟨some ⟨"B", some "image/jpeg"⟩, none⟩]⟩] },
         mkdirFails := false, imageWriteError := none, storeRead := some [],
         storeWriteFails := false, now := 0, nowISO := "t" }).2.filesWritten =
      [("generatedImage-0.jpg", "B")] ∧
    (POST { prompt := some "p", image := none, history := none }
       { providerResult := Except.ok { candidates := [⟨[⟨some ⟨"A", some "image/png"⟩, none⟩,
                                                       ⟨some ⟨"B", some "image/jpeg"⟩, none⟩]⟩] },
         mkdirFails := false, imageWriteError := none, storeRead := some [],
         storeWriteFails := false, now := 0, nowISO := "t" }).1 =
      HResult.ok (some "data:image/jpeg;base64,B") none := by
  decide

/-- C7 amended: on a request without input image whose provider call
succeeds and whose image file write succeeds, when the extraction ends
with truthy image data the handler writes exactly the file
`generatedImage-<now>.png` when the extracted (last-seen) MIME is
`image/png` and `generatedImage-<now>.jpg` for any other MIME, and the
response image is `data:<extracted mime>;base64,<extracted payload>`;
when the extraction ends with no truthy image data, no file is written
and the image field is null. -/
theorem png_extension_and_data_url (p : String) (env : Env) (resp : GResponse)
    (hp : p ≠ "") (hres : env.providerResult = Except.ok resp)
    (hiw : env.imageWriteError = none) :
    ((jsTruthy (extractResponse resp).imageData = true →
      (POST { prompt := some p, image := none, history := none } env).1 =
        HResult.ok
          (some ("data:" ++ (extractResponse resp).mimeType ++ ";base64," ++
            (extractResponse resp).imageData.getD ""))
          (extractResponse resp).textResponse ∧
      (POST { prompt := some p, image := none, history := none } env).2.filesWritten =
        [("generatedImage-" ++ Nat.repr env.now ++ "." ++
            (if (extractResponse resp).mimeType == "image/png" then "png" else "jpg"),
          (extractResponse resp).imageData.getD "")]) ∧
     (jsTruthy (extractResponse resp).imageData = false →
      (POST { prompt := some p, image := none, history := none } env).1 =
        HResult.ok none (extractResponse resp).textResponse ∧
      (POST { prompt := some p, image := none, history := none } env).2.filesWritten = [])) := by
  have hpr : jsTruthy (some p) = true := jsTruthy_some hp
  have hpost : POST { prompt := some p, image := none, history := none } env =
      storeAndRespond p env
        { history := [], message := [{ text := some p, inlineData := none }] }
        (extractResponse resp) := by
    unfold POST buildMessageParts
    rw [show ({ prompt := some p, image := none, history := none } : GenRequest).prompt = some p
          from rfl, hpr, hres]
    rfl
  rw [hpost]
  unfold storeAndRespond storeImage
  constructor
  · intro hj
    rw [hj, hiw]
    simp
  · intro hj
    rw [hj]
    simp

/-- Witness for the amended C7: a reply whose single inline part is PNG
yields a `.png` file and a PNG data URL. -/
theorem png_extension_and_data_url_witness :
    (POST { prompt := some "p", image := none, history := none }
       { providerResult := Except.ok { candidates := [⟨[⟨some ⟨"B", some "image/png"⟩, none⟩]⟩] },
         mkdirFails := false, imageWriteError := none, storeRead := some [],
         storeWriteFails := false, now := 0, nowISO := "t" }).1 =
      HResult.ok
        (some ("data:" ++
          (extractResponse { candidates := [⟨[⟨some ⟨"B", some "image/png"⟩, none⟩]⟩] }).mimeType ++
          ";base64," ++
          (extractResponse { candidates := [⟨[⟨some ⟨"B", some "image/png"⟩, none⟩]⟩] }).imageData.getD ""))
        (extractResponse { candidates := [⟨[⟨some ⟨"B", some "image/png"⟩, none⟩]⟩] }).textResponse ∧
    (POST { prompt := some "p", image := none, history := none }
       { providerResult := Except.ok { candidates := [⟨[⟨some ⟨"B", some "image/png"⟩, none⟩]⟩] },
         mkdirFails := false, imageWriteError := none, storeRead := some [],
         storeWriteFails := false, now := 0, nowISO := "t" }).2.filesWritten =
      [("generatedImage-" ++ Nat.repr 0 ++ "." ++
          (if (extractResponse { candidates := [⟨[⟨some ⟨"B", some "image/png"⟩, none⟩]⟩] }).mimeType
              == "image/png" then "png" else "jpg"),
        (extractResponse { candidates := [⟨[⟨some ⟨"B", some "image/png"⟩, none⟩]⟩] }).imageData.getD "")] :=
  (png_extension_and_data_url "p"
    { providerResult := Except.ok { candidates := [⟨[⟨some ⟨"B", some "image/png"⟩, none⟩]⟩] },
      mkdirFails := false, imageWriteError := none, storeRead := some [],
      storeWriteFails := false, now := 0, nowISO := "t" }
    { candidates := [⟨[⟨some ⟨"B", some "image/png"⟩, none⟩]⟩] }
    (by decide) rfl rfl).1 (by decide)
